import Mathlib

/-!
Verification development for the CementOS frontend.

The definitions below are shallow embeddings of the TypeScript source:
- `src/frontend/src/services/api.ts` (session id handling, `makeRequest`,
  `sendMessage`),
- `src/frontend/src/components/FloatingChatbot.tsx` (`checkAPIConnection`,
  `handleSend`),
- `src/frontend/src/components/modals/ProfileModal.tsx` (`handleAddMember`),
- `src/frontend/src/components/dashboard/APIStatusIndicator.tsx` (the mount
  effect with its 30-second polling timer),
- the saved-scenarios manager (`filteredScenarios`,
  `handleDuplicateScenario`).

Browser facilities the code relies on are modelled explicitly: local storage
is a key/value store threaded through the functions, `Math.random` output is
an input string, `fetch` outcomes are an inductive type, and timestamps are
opaque strings irrelevant to the properties proved here.
-/

namespace CementOS

/-! ## Local storage

The app reads and writes browser local storage only through
`localStorage.getItem`/`localStorage.setItem`.  A store is a list of
key/value pairs; the most recent write of a key shadows older ones. -/

structure Store where
  entries : List (String × String)
deriving Repr, DecidableEq

def Store.getItem (st : Store) (k : String) : Option String :=
  (st.entries.find? (fun p => p.1 == k)).map Prod.snd

def Store.setItem (st : Store) (k v : String) : Store :=
  ⟨(k, v) :: st.entries⟩

/-! ## Session id layer (`src/frontend/src/services/api.ts`) -/

/-- The fixed local-storage key used by `getSessionId` and `resetSession`. -/
def sessionKey : String := "cemenos_session_id"

/-- `'cemenos_' + Math.random().toString(36).substring(2, 15)`; the random
part is the input `rand`. -/
def genSessionId (rand : String) : String := "cemenos_" ++ rand

/-- `CementOSAPI.getSessionId`: read the stored id; when it is falsy —
`getItem` returned `null` or the stored string is empty, the
`if (!sessionId)` check — generate a fresh one and write it back under
`sessionKey`; otherwise return the stored id unchanged. -/
def getSessionId (st : Store) (rand : String) : String × Store :=
  match st.getItem sessionKey with
  | some sid =>
      if sid == "" then
        let fresh := genSessionId rand
        (fresh, st.setItem sessionKey fresh)
      else (sid, st)
  | none =>
      let fresh := genSessionId rand
      (fresh, st.setItem sessionKey fresh)

/-- The mutable field `CementOSAPI.sessionId`. -/
structure APIState where
  sessionId : String
deriving Repr, DecidableEq

/-- The `CementOSAPI` constructor: `this.sessionId = this.getSessionId()`. -/
def APIState.init (st : Store) (rand : String) : APIState × Store :=
  let r := getSessionId st rand
  (⟨r.1⟩, r.2)

/-- `CementOSAPI.resetSession`: overwrite the field with a freshly generated
id and write it back under the same key.  The previous state is discarded. -/
def resetSession (_api : APIState) (st : Store) (rand : String) :
    APIState × Store :=
  let sid := genSessionId rand
  (⟨sid⟩, st.setItem sessionKey sid)

/-! ## Requests built by the service layer -/

inductive HttpMethod where
  | get
  | post
  | delete
deriving Repr, DecidableEq

/-- An outgoing HTTP request; the JSON body is the list of fields of the
object literal passed to `JSON.stringify`, in source order. -/
structure ApiRequest where
  method : HttpMethod
  endpoint : String
  body : List (String × String)
deriving Repr, DecidableEq

/-- JavaScript `a || b` on strings: the empty string is falsy. -/
def jsOrElse (custom : Option String) (dflt : String) : String :=
  match custom with
  | some s => if s == "" then dflt else s
  | none => dflt

/-- The request built by `CementOSAPI.sendMessage`: a POST to `/chat` whose
body is `{message, session_id: customSessionId || this.sessionId}`. -/
def sendMessageRequest (api : APIState) (message : String)
    (customSessionId : Option String) : ApiRequest :=
  { method := .post
    endpoint := "/chat"
    body := [("message", message),
             ("session_id", jsOrElse customSessionId api.sessionId)] }

/-! ## `makeRequest` error handling

`makeRequest` awaits `fetch`, throws on `!response.ok`, then awaits
`response.json()` and returns the result.  A `fetch` outcome is either a
network-level rejection or a response carrying a status code and, when it is
read, either a parsed JSON body (`some data`) or a `response.json()`
rejection (`none`, the body is not valid JSON). -/

inductive FetchOutcome (α : Type) where
  | networkError
  | response (status : Nat) (jsonBody : Option α)
deriving Repr, DecidableEq

inductive ApiError where
  | network
  | http (status : Nat)
  | jsonParse
deriving Repr, DecidableEq

/-- `response.ok`: the status is in the inclusive range 200–299. -/
def responseOk (status : Nat) : Bool := 200 ≤ status && status ≤ 299

/-- `CementOSAPI.makeRequest`, with the catch-and-rethrow collapsed: the
error escapes unchanged. -/
def makeRequest {α : Type} (o : FetchOutcome α) : Except ApiError α :=
  match o with
  | .networkError => .error .network
  | .response status body =>
      if responseOk status then
        match body with
        | some data => .ok data
        | none => .error .jsonParse
      else .error (.http status)

/-! ## Floating chatbot (`src/frontend/src/components/FloatingChatbot.tsx`) -/

/-- JavaScript `String.prototype.trim`, restricted to the ASCII whitespace
characters recognised by `Char.isWhitespace`. -/
def jsTrim (s : String) : String :=
  ⟨((s.data.dropWhile Char.isWhitespace).reverse.dropWhile
      Char.isWhitespace).reverse⟩

/-- `sub` occurs contiguously at the start of `l`. -/
def startsWith : List Char → List Char → Bool
  | _, [] => true
  | [], _ :: _ => false
  | a :: l, b :: m => a == b && startsWith l m

/-- `sub` occurs contiguously somewhere in `l`
(JavaScript `String.prototype.includes`). -/
def containsSeq : List Char → List Char → Bool
  | [], sub => startsWith [] sub
  | a :: t, sub => startsWith (a :: t) sub || containsSeq t sub

/-- JavaScript `s.includes(sub)`. -/
def jsIncludes (s sub : String) : Bool := containsSeq s.data sub.data

/-- JavaScript `String.prototype.toLowerCase`, ASCII fragment: lower-case
each character. -/
def jsToLower (s : String) : String := ⟨s.data.map Char.toLower⟩

inductive Sender where
  | user
  | bot
deriving Repr, DecidableEq

/-- One entry of the widget's `chatHistory` (the rendered timestamp string
is irrelevant to every property proved here and omitted). -/
structure ChatMsg where
  type : Sender
  message : String
  processingTime : Option Nat
  isError : Bool
deriving Repr, DecidableEq

/-- The component state of `FloatingChatbot` touched by `handleSend` and
`checkAPIConnection` (`isOpen`/`isMinimized` are pure presentation). -/
structure ChatbotState where
  message : String
  isLoading : Bool
  isConnected : Bool
  chatHistory : List ChatMsg
deriving Repr, DecidableEq

/-- The `/chat` response shape consumed by the widget. -/
structure ChatResponse where
  success : Bool
  response : String
  timestamp : String
  processing_time_ms : Nat
deriving Repr, DecidableEq

/-- `checkAPIConnection`: the health-check outcome (did
`cementOSAPI.healthCheck()` resolve?) is the input; the widget stores it in
`isConnected` and touches nothing else. -/
def checkAPIConnection (s : ChatbotState) (healthCheckOk : Bool) :
    ChatbotState :=
  { s with isConnected := healthCheckOk }

/-- The fixed offline fallback list of `handleSend`, in source order. -/
def offlineResponses : List String :=
  ["Based on current data, I recommend increasing alternative fuel usage by 5% to reduce CO2 emissions.",
   "Your energy efficiency is at 87.5%. I can help optimize thermal settings to reach 90%.",
   "I notice temperature fluctuations in the kiln. Would you like me to analyze the thermal patterns?",
   "Quality parameters look good. The recent C3S content adjustment is showing positive results.",
   "I can run a full plant optimization if you\x27d like. This typically improves efficiency by 3-5%.",
   "Your NOx emissions are within limits. Alternative fuel ratio is performing well at current levels.",
   "I\x27ve detected an opportunity to reduce energy consumption by optimizing mill operations. Shall I proceed?"]

/-- The single canned error reply appended by the catch branch of
`handleSend`. -/
def techDifficultiesMsg : String :=
  "I apologize, but I\x27m experiencing technical difficulties. Please try again in a moment, or contact support if the issue persists."

/-- The state after `handleSend` settles, plus whether
`cementOSAPI.sendMessage` was invoked (a network request was made). -/
structure SendResult where
  state : ChatbotState
  requestMade : Bool
deriving Repr, DecidableEq

/-- `handleSend`, run to completion.  `apiResult` is the outcome
`cementOSAPI.sendMessage` would produce if called; `randIdx` is the index
`Math.floor(Math.random() * responses.length)` would produce.  The guard,
the user-message append, the connected branch (success, `success:false`
rethrow, and catch) and the offline branch follow the source line by
line. -/
def handleSend (s : ChatbotState) (apiResult : Except ApiError ChatResponse)
    (randIdx : Fin offlineResponses.length) : SendResult :=
  if jsTrim s.message == "" || s.isLoading then ⟨s, false⟩
  else
    let userMsg : ChatMsg := ⟨.user, s.message, none, false⟩
    let s1 : ChatbotState :=
      { s with chatHistory := s.chatHistory ++ [userMsg],
               isLoading := true, message := "" }
    if s.isConnected then
      match apiResult with
      | .ok resp =>
          if resp.success then
            let aiMsg : ChatMsg :=
              ⟨.bot, resp.response, some resp.processing_time_ms, false⟩
            ⟨{ s1 with chatHistory := s1.chatHistory ++ [aiMsg],
                       isLoading := false }, true⟩
          else
            let errMsg : ChatMsg := ⟨.bot, techDifficultiesMsg, none, true⟩
            ⟨{ s1 with chatHistory := s1.chatHistory ++ [errMsg],
                       isLoading := false }, true⟩
      | .error _ =>
          let errMsg : ChatMsg := ⟨.bot, techDifficultiesMsg, none, true⟩
          ⟨{ s1 with chatHistory := s1.chatHistory ++ [errMsg],
                     isLoading := false }, true⟩
    else
      let aiMsg : ChatMsg :=
        ⟨.bot, "[OFFLINE MODE] " ++ offlineResponses.get randIdx, none, false⟩
      ⟨{ s1 with chatHistory := s1.chatHistory ++ [aiMsg],
                 isLoading := false }, false⟩

/-! ## Profile modal (`src/frontend/src/components/modals/ProfileModal.tsx`) -/

structure TeamMember where
  name : String
  role : String
  email : String
  phone : String
  experience : String
  department : String
deriving Repr, DecidableEq

/-- The blank form `handleAddMember` resets `newMember` to. -/
def emptyNewMember : TeamMember := ⟨"", "", "", "", "", ""⟩

/-- A toast raised through `toast({...})`; `destructive` records
`variant: "destructive"`. -/
structure Toast where
  title : String
  description : String
  destructive : Bool
deriving Repr, DecidableEq

/-- The component state of `ProfileModal` touched by `handleAddMember`. -/
structure ProfileState where
  teamMembers : List TeamMember
  newMember : TeamMember
  isAddingMember : Bool
deriving Repr, DecidableEq

/-- `handleAddMember`: JavaScript truthiness of
`newMember.name && newMember.role && newMember.email` is non-emptiness of
the three strings.  On success the member is appended, the form reset and
the add panel closed; otherwise nothing changes and a destructive toast is
raised. -/
def handleAddMember (s : ProfileState) : ProfileState × Toast :=
  if s.newMember.name != "" && s.newMember.role != "" &&
      s.newMember.email != "" then
    ({ teamMembers := s.teamMembers ++ [s.newMember]
       newMember := emptyNewMember
       isAddingMember := false },
     ⟨"Team Member Added",
      s.newMember.name ++ " has been successfully added to the management team.",
      false⟩)
  else
    (s,
     ⟨"Missing Information",
      "Please fill in all required fields (Name, Role, Email).", true⟩)

/-! ## API status indicator
(`src/frontend/src/components/dashboard/APIStatusIndicator.tsx`)

The mount effect is
`checkConnection(); const interval = setInterval(checkConnection, 30000);
return () => clearInterval(interval);`.  It is embedded as a record of the
three facts the effect body states, together with the standard denotation
of `setInterval`: the k-th timer firing after registration is at
`intervalMs * (k+1)` milliseconds, and a cleared timer never fires at or
after the unmount instant. -/

structure UseEffectTimer where
  /-- the effect body calls the callback directly, before registering
  the timer -/
  immediateCall : Bool
  /-- the period passed to `setInterval` -/
  intervalMs : Nat
  /-- the effect's cleanup function calls `clearInterval` on the
  registered timer -/
  cleanupClearsInterval : Bool
deriving Repr, DecidableEq

/-- The mount effect of `APIStatusIndicator`. -/
def apiStatusIndicatorEffect : UseEffectTimer :=
  { immediateCall := true, intervalMs := 30000,
    cleanupClearsInterval := true }

/-- Time (ms after mount) of the n-th invocation of the callback, ignoring
unmount: the direct call at 0 when present, then the timer firings. -/
def callbackTime (e : UseEffectTimer) (n : Nat) : Nat :=
  if e.immediateCall then
    if n = 0 then 0 else e.intervalMs * n
  else e.intervalMs * (n + 1)

/-- Whether the n-th invocation still happens when the component unmounts
at time `u`: a cleared timer only fires strictly before `u`. -/
def firesBeforeUnmount (e : UseEffectTimer) (u n : Nat) : Bool :=
  if e.cleanupClearsInterval then callbackTime e n < u else true

/-! ## Saved-scenarios manager (`src/unnamed/part_001`) -/

structure ScenarioParams where
  objective : String
  duration : String
  speed : String
  safetyLimits : Bool
  autoStop : Bool
deriving Repr, DecidableEq

structure ExpectedResult where
  value : String
  change : String
deriving Repr, DecidableEq

structure ExpectedResults where
  quality : ExpectedResult
  energy : ExpectedResult
  emissions : ExpectedResult
  cost : ExpectedResult
deriving Repr, DecidableEq

/-- `lastResults`; its numeric fields are TypeScript `number`s used only for
display, modelled as rationals. -/
structure LastResults where
  quality : ℚ
  energy : ℚ
  emissions : ℚ
  cost : ℚ
  timestamp : String
deriving Repr, DecidableEq

/-- A `SavedScenario`.  `category` and `status` are string-literal unions in
the source and remain strings here; `successRate` and `runs` hold the
integral values the component uses. -/
structure Scenario where
  id : String
  name : String
  description : String
  created : String
  modified : String
  author : String
  category : String
  status : String
  successRate : Nat
  runs : Nat
  averageDuration : String
  tags : List String
  parameters : ScenarioParams
  expectedResults : ExpectedResults
  lastResults : Option LastResults
deriving Repr, DecidableEq

/-- The search predicate of `filteredScenarios`: the lower-cased query
occurs in the lower-cased name, description, or one of the tags. -/
def matchesSearch (searchQuery : String) (sc : Scenario) : Bool :=
  jsIncludes (jsToLower sc.name) (jsToLower searchQuery) ||
  jsIncludes (jsToLower sc.description) (jsToLower searchQuery) ||
  sc.tags.any (fun tag => jsIncludes (jsToLower tag) (jsToLower searchQuery))

/-- `filteredScenarios`: keep the scenarios whose category matches the
selected one (or `'all'` is selected) and which match the search query. -/
def filteredScenarios (scenarios : List Scenario)
    (selectedCategory searchQuery : String) : List Scenario :=
  scenarios.filter (fun sc =>
    (selectedCategory == "all" || sc.category == selectedCategory) &&
    matchesSearch searchQuery sc)

/-- `handleDuplicateScenario`: spread the scenario, overwrite `id` (with
`Date.now().toString()`, the input `newId`), `name`, `created`, `modified`,
`status`, `runs` and `successRate`, and prepend the copy. -/
def handleDuplicateScenario (scenarios : List Scenario) (scenario : Scenario)
    (newId : String) : List Scenario :=
  let duplicated : Scenario :=
    { scenario with
      id := newId
      name := scenario.name ++ " (Copy)"
      created := "Just now"
      modified := "Just now"
      status := "draft"
      runs := 0
      successRate := 0 }
  duplicated :: scenarios

/-! ## Helper lemmas and sample data -/

theorem getItem_setItem_self (st : Store) (k v : String) :
    (st.setItem k v).getItem k = some v := by
  simp [Store.getItem, Store.setItem, List.find?]

theorem genSessionId_ne_empty (rand : String) : genSessionId rand ≠ "" := by
  intro h
  have hlen := congrArg String.length h
  simp [genSessionId, String.length_append] at hlen
  exact absurd hlen.1 (by decide)

theorem startsWith_nil (l : List Char) : startsWith l [] = true := by
  cases l <;> rfl

theorem containsSeq_nil (l : List Char) : containsSeq l [] = true := by
  cases l <;> simp [containsSeq, startsWith_nil]

theorem jsIncludes_empty (s : String) : jsIncludes s "" = true :=
  containsSeq_nil s.data

theorem jsToLower_empty : jsToLower "" = "" := rfl

theorem jsTrim_eq_empty_of_whitespace (s : String)
    (h : ∀ c ∈ s.data, c.isWhitespace = true) : jsTrim s = "" := by
  unfold jsTrim
  rw [List.dropWhile_eq_nil_iff.mpr h]
  rfl

/-- A concrete index into the offline fallback list. -/
def fallbackIdx : Fin offlineResponses.length := ⟨0, by decide⟩

/-- A concrete saved scenario (the first literal of the component's initial
state, with `lastResults` dropped), used as sample input. -/
def sampleScenario : Scenario :=
  { id := "1"
    name := "Energy Crisis Mode"
    description := "Optimizes for maximum energy efficiency during power shortages"
    created := "2 days ago"
    modified := "1 hour ago"
    author := "Priya Sharma"
    category := "optimization"
    status := "production"
    successRate := 94
    runs := 23
    averageDuration := "6h 15m"
    tags := ["energy", "efficiency", "crisis"]
    parameters := ⟨"efficiency", "8 hours", "5x", true, true⟩
    expectedResults :=
      ⟨⟨"92%", "-2%"⟩, ⟨"3.1 GJ/ton", "-8%"⟩, ⟨"122 kg/ton", "+3%"⟩,
       ⟨"$78/ton", "-6%"⟩⟩
    lastResults := none }

/-! ## Claim theorems -/

/-- C1: the session identifier is the program's only durable state.  A
stored non-empty id is returned unchanged (so it persists across reloads
and is reused; a stored empty string is falsy to the `if (!sessionId)`
check and regenerated like an absent one), an absent or falsy id is
generated and written under the fixed key `cemenos_session_id`,
re-initialising on the written store yields the very same id,
`sendMessage` without a custom session id attaches exactly the stored
identifier, and `resetSession` generates a fresh id and writes it back
under the same key. -/
theorem sessionId_lifecycle (st : Store) (rand rand2 v : String)
    (api : APIState) (msg : String) :
    (st.getItem sessionKey = some v → v ≠ "" →
      getSessionId st rand = (v, st)) ∧
    (st.getItem sessionKey = none ∨ st.getItem sessionKey = some "" →
      getSessionId st rand =
        (genSessionId rand, st.setItem sessionKey (genSessionId rand)) ∧
      (st.setItem sessionKey (genSessionId rand)).getItem sessionKey =
        some (genSessionId rand)) ∧
    (getSessionId (getSessionId st rand).2 rand2).1 =
      (getSessionId st rand).1 ∧
    (sendMessageRequest api msg none).body =
      [("message", msg), ("session_id", api.sessionId)] ∧
    resetSession api st rand =
      (⟨genSessionId rand⟩, st.setItem sessionKey (genSessionId rand)) := by
  have hne : (genSessionId rand == "") = false :=
    beq_eq_false_iff_ne.mpr (genSessionId_ne_empty rand)
  refine ⟨?_, ?_, ?_, rfl, rfl⟩
  · intro h hv
    simp [getSessionId, h, hv]
  · intro h
    rcases h with h | h
    · exact ⟨by simp [getSessionId, h], getItem_setItem_self st _ _⟩
    · exact ⟨by simp [getSessionId, h], getItem_setItem_self st _ _⟩
  · cases h : st.getItem sessionKey with
    | some sid =>
        by_cases hv : sid = ""
        · subst hv
          simp [getSessionId, h, getItem_setItem_self, hne]
        · simp [getSessionId, h, hv]
    | none => simp [getSessionId, h, getItem_setItem_self, hne]

/-- Witness for C1: the lifecycle at a store holding a non-empty id, at an
empty store, and at a store holding the falsy empty string. -/
theorem sessionId_lifecycle_witness :
    getSessionId ⟨[(sessionKey, "cemenos_w")]⟩ "r" =
      ("cemenos_w", ⟨[(sessionKey, "cemenos_w")]⟩) ∧
    getSessionId ⟨[]⟩ "abc" =
      (genSessionId "abc",
       Store.setItem ⟨[]⟩ sessionKey (genSessionId "abc")) ∧
    getSessionId ⟨[(sessionKey, "")]⟩ "xyz" =
      (genSessionId "xyz",
       Store.setItem ⟨[(sessionKey, "")]⟩ sessionKey (genSessionId "xyz")) :=
  ⟨(sessionId_lifecycle ⟨[(sessionKey, "cemenos_w")]⟩ "r" "r2" "cemenos_w"
      ⟨"s"⟩ "m").1 (by decide) (by decide),
   ((sessionId_lifecycle ⟨[]⟩ "abc" "x" "v" ⟨"s"⟩ "m").2.1
      (Or.inl (by decide))).1,
   ((sessionId_lifecycle ⟨[(sessionKey, "")]⟩ "xyz" "x" "v" ⟨"s"⟩ "m").2.1
      (Or.inr (by decide))).1⟩

/-- C6: every chat request built by `sendMessage` is a POST to `/chat`
whose JSON body has exactly the two fields `message` (the user's text) and
`session_id` (the stored identifier when no custom id is supplied, the
supplied one otherwise). -/
theorem sendMessage_request_shape (api : APIState) (message : String)
    (customSessionId : Option String) :
    (sendMessageRequest api message customSessionId).method =
      HttpMethod.post ∧
    (sendMessageRequest api message customSessionId).endpoint = "/chat" ∧
    (sendMessageRequest api message customSessionId).body =
      [("message", message),
       ("session_id", jsOrElse customSessionId api.sessionId)] ∧
    (customSessionId = none →
      (sendMessageRequest api message customSessionId).body =
        [("message", message), ("session_id", api.sessionId)]) ∧
    (∀ c, customSessionId = some c → c ≠ "" →
      (sendMessageRequest api message customSessionId).body =
        [("message", message), ("session_id", c)]) := by
  refine ⟨rfl, rfl, rfl, ?_, ?_⟩
  · intro h; subst h; rfl
  · intro c h hc; subst h
    simp [sendMessageRequest, jsOrElse, hc]

/-- Witness for C6: the request at a concrete api state, without and with a
custom session id. -/
theorem sendMessage_request_shape_witness :
    (sendMessageRequest ⟨"cemenos_a"⟩ "hi" none).body =
      [("message", "hi"), ("session_id", "cemenos_a")] ∧
    (sendMessageRequest ⟨"cemenos_a"⟩ "hi" (some "custom")).body =
      [("message", "hi"), ("session_id", "custom")] :=
  ⟨(sendMessage_request_shape ⟨"cemenos_a"⟩ "hi" none).2.2.2.1 rfl,
   (sendMessage_request_shape ⟨"cemenos_a"⟩ "hi" (some "custom")).2.2.2.2
     "custom" rfl (by decide)⟩

/-- C7: the status indicator checks the API once on mount (time 0) and then
on a periodic timer whose successive firings are exactly 30000 ms apart,
and the cleared timer fires exactly at the instants strictly before
unmount. -/
theorem apiStatusIndicator_polling :
    apiStatusIndicatorEffect.intervalMs = 30000 ∧
    callbackTime apiStatusIndicatorEffect 0 = 0 ∧
    (∀ n, callbackTime apiStatusIndicatorEffect (n + 1) =
      callbackTime apiStatusIndicatorEffect n + 30000) ∧
    (∀ u n, firesBeforeUnmount apiStatusIndicatorEffect u n =
      decide (callbackTime apiStatusIndicatorEffect n < u)) := by
  refine ⟨rfl, rfl, ?_, fun u n => rfl⟩
  intro n
  cases n with
  | zero => rfl
  | succ m =>
      simp [callbackTime, apiStatusIndicatorEffect]
      ring

/-- C9: with category `'all'` selected and an empty search query, the
scenario filter is the identity. -/
theorem filteredScenarios_all_empty_id (scenarios : List Scenario) :
    filteredScenarios scenarios "all" "" = scenarios := by
  unfold filteredScenarios
  rw [List.filter_eq_self]
  intro sc _
  simp [matchesSearch, jsIncludes_empty, jsToLower_empty]

/-- C10: duplicating a scenario prepends a copy whose name gains the
`' (Copy)'` suffix, whose status is `'draft'`, whose runs and success rate
are 0, and whose content fields equal the original's, while the previous
list — the original included — survives unchanged as the tail. -/
theorem handleDuplicateScenario_spec (scenarios : List Scenario)
    (s : Scenario) (newId : String) (h : s ∈ scenarios) :
    ∃ d, handleDuplicateScenario scenarios s newId = d :: scenarios ∧
      d.name = s.name ++ " (Copy)" ∧ d.status = "draft" ∧ d.runs = 0 ∧
      d.successRate = 0 ∧ d.description = s.description ∧
      d.author = s.author ∧ d.category = s.category ∧ d.tags = s.tags ∧
      d.parameters = s.parameters ∧
      d.expectedResults = s.expectedResults ∧ s ∈ scenarios :=
  ⟨_, rfl, rfl, rfl, rfl, rfl, rfl, rfl, rfl, rfl, rfl, rfl, h⟩

/-- Witness for C10: duplicating the sample scenario inside a singleton
list. -/
theorem handleDuplicateScenario_spec_witness :
    ∃ d, handleDuplicateScenario [sampleScenario] sampleScenario "42" =
        d :: [sampleScenario] ∧
      d.name = sampleScenario.name ++ " (Copy)" ∧ d.status = "draft" ∧
      d.runs = 0 ∧ d.successRate = 0 ∧
      d.description = sampleScenario.description ∧
      d.author = sampleScenario.author ∧
      d.category = sampleScenario.category ∧
      d.tags = sampleScenario.tags ∧
      d.parameters = sampleScenario.parameters ∧
      d.expectedResults = sampleScenario.expectedResults ∧
      sampleScenario ∈ [sampleScenario] :=
  handleDuplicateScenario_spec [sampleScenario] sampleScenario "42"
    (List.mem_singleton_self _)

/-- C4 counterexample: a 200 response whose body `response.json()` rejects
makes `makeRequest` raise an error even though the fetch did not throw and
the status is 2xx, so "error iff network exception or non-2xx" fails. -/
theorem makeRequest_json_error_on_ok_response :
    responseOk 200 = true ∧
    makeRequest (FetchOutcome.response 200 (none : Option String)) =
      Except.error ApiError.jsonParse := by
  exact ⟨by decide, rfl⟩

/-- C4 amended: `makeRequest` raises an error exactly when the fetch throws,
the status is non-2xx, or the 2xx body fails to parse as JSON; on a 2xx
response with a parseable body it returns the parsed JSON body, and every
success arises that way. -/
theorem makeRequest_outcomes {α : Type} (o : FetchOutcome α) :
    (o = FetchOutcome.networkError →
      makeRequest o = Except.error ApiError.network) ∧
    (∀ status body, o = FetchOutcome.response status body →
      responseOk status = false →
      makeRequest o = Except.error (ApiError.http status)) ∧
    (∀ status d, o = FetchOutcome.response status (some d) →
      responseOk status = true → makeRequest o = Except.ok d) ∧
    (∀ status, o = FetchOutcome.response status (none : Option α) →
      responseOk status = true →
      makeRequest o = Except.error ApiError.jsonParse) ∧
    (∀ a, makeRequest o = Except.ok a →
      ∃ status, o = FetchOutcome.response status (some a) ∧
        responseOk status = true) := by
  refine ⟨?_, ?_, ?_, ?_, ?_⟩
  · intro h; subst h; rfl
  · intro status body h hbad; subst h
    simp [makeRequest, hbad]
  · intro status d h hok; subst h
    simp [makeRequest, hok]
  · intro status h hok; subst h
    simp [makeRequest, hok]
  · intro a h
    cases o with
    | networkError => simp [makeRequest] at h
    | response status body =>
        cases hok : responseOk status with
        | false => simp [makeRequest, hok] at h
        | true =>
            cases body with
            | none => simp [makeRequest, hok] at h
            | some d =>
                simp [makeRequest, hok] at h
                exact ⟨status, by rw [h], hok⟩

/-- Witness for the C4 amended theorem: the four outcomes at concrete fetch
results. -/
theorem makeRequest_outcomes_witness :
    makeRequest (FetchOutcome.networkError : FetchOutcome Nat) =
      Except.error ApiError.network ∧
    makeRequest (FetchOutcome.response 404 (some 7)) =
      Except.error (ApiError.http 404) ∧
    makeRequest (FetchOutcome.response 200 (some 7)) = Except.ok 7 ∧
    makeRequest (FetchOutcome.response 200 (none : Option Nat)) =
      Except.error ApiError.jsonParse :=
  ⟨(makeRequest_outcomes FetchOutcome.networkError).1 rfl,
   (makeRequest_outcomes (FetchOutcome.response 404 (some 7))).2.1 404
     (some 7) rfl (by decide),
   (makeRequest_outcomes (FetchOutcome.response 200 (some 7))).2.2.1 200 7
     rfl (by decide),
   (makeRequest_outcomes (FetchOutcome.response 200 (none : Option Nat)))
     |>.2.2.2.1 200 rfl (by decide)⟩

/-- C5: adding a team member with any of name, role or email empty raises a
destructive toast and changes nothing; with all three filled it appends
exactly the new member and resets the form. -/
theorem handleAddMember_spec (s : ProfileState) :
    ((s.newMember.name = "" ∨ s.newMember.role = "" ∨
        s.newMember.email = "") →
      (handleAddMember s).2.destructive = true ∧
      (handleAddMember s).1 = s) ∧
    ((s.newMember.name ≠ "" ∧ s.newMember.role ≠ "" ∧
        s.newMember.email ≠ "") →
      (handleAddMember s).1.teamMembers = s.teamMembers ++ [s.newMember] ∧
      (handleAddMember s).1.newMember = emptyNewMember ∧
      (handleAddMember s).2.destructive = false) := by
  constructor
  · intro h
    have hc : (s.newMember.name != "" && s.newMember.role != "" &&
        s.newMember.email != "") = false := by
      rcases h with h | h | h <;> simp [h]
    simp [handleAddMember, hc]
  · rintro ⟨h1, h2, h3⟩
    have hc : (s.newMember.name != "" && s.newMember.role != "" &&
        s.newMember.email != "") = true := by
      simp [h1, h2, h3]
    simp [handleAddMember, hc]

/-- Witness for C5: a member missing its name is rejected without touching
the list; a fully filled member is appended and the form reset. -/
theorem handleAddMember_spec_witness :
    ((handleAddMember
        ⟨[], ⟨"", "Engineer", "a@b.c", "", "", ""⟩, true⟩).2.destructive =
          true ∧
      (handleAddMember ⟨[], ⟨"", "Engineer", "a@b.c", "", "", ""⟩, true⟩).1 =
        ⟨[], ⟨"", "Engineer", "a@b.c", "", "", ""⟩, true⟩) ∧
    ((handleAddMember
        ⟨[], ⟨"Asha", "Engineer", "a@b.c", "", "", ""⟩,
         true⟩).1.teamMembers =
          [] ++ [⟨"Asha", "Engineer", "a@b.c", "", "", ""⟩] ∧
      (handleAddMember
        ⟨[], ⟨"Asha", "Engineer", "a@b.c", "", "", ""⟩,
         true⟩).1.newMember = emptyNewMember ∧
      (handleAddMember
        ⟨[], ⟨"Asha", "Engineer", "a@b.c", "", "", ""⟩,
         true⟩).2.destructive = false) :=
  ⟨(handleAddMember_spec ⟨[], ⟨"", "Engineer", "a@b.c", "", "", ""⟩, true⟩).1
      (Or.inl rfl),
   (handleAddMember_spec
      ⟨[], ⟨"Asha", "Engineer", "a@b.c", "", "", ""⟩, true⟩).2
      ⟨by decide, by decide, by decide⟩⟩

/-- C8: with a blank (empty or all-whitespace) input or while a send is in
flight, `handleSend` returns immediately: chat history, loading flag and
the input are unchanged and no network request is made. -/
theorem handleSend_guard_frame (s : ChatbotState)
    (apiResult : Except ApiError ChatResponse)
    (randIdx : Fin offlineResponses.length)
    (h : (∀ c ∈ s.message.data, c.isWhitespace = true) ∨
      s.isLoading = true) :
    (handleSend s apiResult randIdx).state.chatHistory = s.chatHistory ∧
    (handleSend s apiResult randIdx).state.isLoading = s.isLoading ∧
    (handleSend s apiResult randIdx).state.message = s.message ∧
    (handleSend s apiResult randIdx).requestMade = false := by
  have hguard : (jsTrim s.message == "" || s.isLoading) = true := by
    rcases h with h | h
    · simp [jsTrim_eq_empty_of_whitespace s.message h]
    · simp [h]
  unfold handleSend
  simp [hguard]

/-- Witness for C8: a whitespace-only input and a loading state both leave
the widget untouched. -/
theorem handleSend_guard_frame_witness :
    ((handleSend ⟨"  ", false, true, []⟩ (Except.error ApiError.network)
        fallbackIdx).state.chatHistory = [] ∧
      (handleSend ⟨"  ", false, true, []⟩ (Except.error ApiError.network)
        fallbackIdx).state.isLoading = false ∧
      (handleSend ⟨"  ", false, true, []⟩ (Except.error ApiError.network)
        fallbackIdx).state.message = "  " ∧
      (handleSend ⟨"  ", false, true, []⟩ (Except.error ApiError.network)
        fallbackIdx).requestMade = false) ∧
    ((handleSend ⟨"hello", true, true, []⟩ (Except.error ApiError.network)
        fallbackIdx).state.message = "hello" ∧
      (handleSend ⟨"hello", true, true, []⟩ (Except.error ApiError.network)
        fallbackIdx).requestMade = false) :=
  ⟨handleSend_guard_frame ⟨"  ", false, true, []⟩
      (Except.error ApiError.network) fallbackIdx (Or.inl (by decide)),
   ⟨(handleSend_guard_frame ⟨"hello", true, true, []⟩
       (Except.error ApiError.network) fallbackIdx (Or.inr rfl)).2.2.1,
    (handleSend_guard_frame ⟨"hello", true, true, []⟩
       (Except.error ApiError.network) fallbackIdx (Or.inr rfl)).2.2.2⟩⟩

/-- C2: a failed health check sets the connected flag to false, and a send
performed while the flag is false makes no network request and appends the
user message followed by a bot message that is an element of the fixed
offline fallback list with the `[OFFLINE MODE] ` marker prepended. -/
theorem offline_mode_send_fallback (s : ChatbotState)
    (apiResult : Except ApiError ChatResponse)
    (randIdx : Fin offlineResponses.length)
    (hconn : s.isConnected = false)
    (hmsg : ¬ jsTrim s.message = "") (hload : s.isLoading = false) :
    (checkAPIConnection s false).isConnected = false ∧
    (handleSend s apiResult randIdx).requestMade = false ∧
    (handleSend s apiResult randIdx).state.chatHistory =
      s.chatHistory ++
        [⟨Sender.user, s.message, none, false⟩,
         ⟨Sender.bot, "[OFFLINE MODE] " ++ offlineResponses.get randIdx,
          none, false⟩] ∧
    "[OFFLINE MODE] " ++ offlineResponses.get randIdx ∈
      offlineResponses.map (fun r => "[OFFLINE MODE] " ++ r) := by
  have hguard : (jsTrim s.message == "" || s.isLoading) = false := by
    simp [hload, hmsg]
  refine ⟨rfl, ?_, ?_, ?_⟩
  · simp [handleSend, hguard, hconn]
  · simp [handleSend, hguard, hconn]
  · exact List.mem_map_of_mem _ (offlineResponses.get_mem _ _)

/-- Witness for C2: an offline send at a concrete state. -/
theorem offline_mode_send_fallback_witness :
    (checkAPIConnection ⟨"hi", false, false, []⟩ false).isConnected =
      false ∧
    (handleSend ⟨"hi", false, false, []⟩ (Except.error ApiError.network)
      fallbackIdx).requestMade = false ∧
    (handleSend ⟨"hi", false, false, []⟩ (Except.error ApiError.network)
      fallbackIdx).state.chatHistory =
      [] ++
        [⟨Sender.user, "hi", none, false⟩,
         ⟨Sender.bot, "[OFFLINE MODE] " ++ offlineResponses.get fallbackIdx,
          none, false⟩] ∧
    "[OFFLINE MODE] " ++ offlineResponses.get fallbackIdx ∈
      offlineResponses.map (fun r => "[OFFLINE MODE] " ++ r) :=
  offline_mode_send_fallback ⟨"hi", false, false, []⟩
    (Except.error ApiError.network) fallbackIdx rfl (by decide) rfl

/-- C3 counterexample: a connected send that fails with a network exception
gets the single fixed apology string as the bot reply, and that string is
not an element of the rotating offline fallback list (with or without the
offline marker). -/
theorem connected_failure_reply_not_in_fallback_list :
    (handleSend ⟨"hello", false, true, []⟩ (Except.error ApiError.network)
        fallbackIdx).state.chatHistory =
      [⟨Sender.user, "hello", none, false⟩,
       ⟨Sender.bot, techDifficultiesMsg, none, true⟩] ∧
    techDifficultiesMsg ∉ offlineResponses ∧
    techDifficultiesMsg ∉
      offlineResponses.map (fun r => "[OFFLINE MODE] " ++ r) := by
  refine ⟨by decide, by decide, by decide⟩

/-- C3 amended: every failure of a connected chat send — an error raised by
the service layer (network exception or non-2xx response) or a response
with success=false — makes the widget append the single fixed canned error
string, flagged as an error; the rotating canned set is reserved for
offline-mode sends. -/
theorem connected_send_failure_reply (s : ChatbotState)
    (apiResult : Except ApiError ChatResponse)
    (randIdx : Fin offlineResponses.length)
    (hconn : s.isConnected = true)
    (hmsg : ¬ jsTrim s.message = "") (hload : s.isLoading = false)
    (hfail : (∃ e, apiResult = Except.error e) ∨
      (∃ r, apiResult = Except.ok r ∧ r.success = false)) :
    (handleSend s apiResult randIdx).state.chatHistory =
      s.chatHistory ++
        [⟨Sender.user, s.message, none, false⟩,
         ⟨Sender.bot, techDifficultiesMsg, none, true⟩] ∧
    (handleSend s apiResult randIdx).requestMade = true := by
  have hguard : (jsTrim s.message == "" || s.isLoading) = false := by
    simp [hload, hmsg]
  rcases hfail with ⟨e, he⟩ | ⟨r, hr, hsucc⟩
  · subst he
    constructor <;> simp [handleSend, hguard, hconn]
  · subst hr
    constructor <;> simp [handleSend, hguard, hconn, hsucc]

/-- Witness for the C3 amended theorem: a network-level failure and a
success=false response at concrete states. -/
theorem connected_send_failure_reply_witness :
    ((handleSend ⟨"hello", false, true, []⟩
        (Except.error ApiError.network) fallbackIdx).state.chatHistory =
      [] ++
        [⟨Sender.user, "hello", none, false⟩,
         ⟨Sender.bot, techDifficultiesMsg, none, true⟩] ∧
      (handleSend ⟨"hello", false, true, []⟩
        (Except.error ApiError.network) fallbackIdx).requestMade = true) ∧
    ((handleSend ⟨"hello", false, true, []⟩
        (Except.ok ⟨false, "nope", "t", 3⟩) fallbackIdx).state.chatHistory =
      [] ++
        [⟨Sender.user, "hello", none, false⟩,
         ⟨Sender.bot, techDifficultiesMsg, none, true⟩] ∧
      (handleSend ⟨"hello", false, true, []⟩
        (Except.ok ⟨false, "nope", "t", 3⟩) fallbackIdx).requestMade =
        true) :=
  ⟨connected_send_failure_reply ⟨"hello", false, true, []⟩
      (Except.error ApiError.network) fallbackIdx rfl (by decide) rfl
      (Or.inl ⟨ApiError.network, rfl⟩),
   connected_send_failure_reply ⟨"hello", false, true, []⟩
      (Except.ok ⟨false, "nope", "t", 3⟩) fallbackIdx rfl (by decide) rfl
      (Or.inr ⟨⟨false, "nope", "t", 3⟩, rfl, rfl⟩)⟩

end CementOS
